import Mathlib

/-!
# Verification of the `ui-image` component

Shallow embedding of `src/packages/components/src/components/ui-image/ui-image.tsx`
(the only source file of the repository).  The component's per-instance mutable
state is a record `ComponentState`; each handler becomes a pure function from
state (plus the timestamps that `new Date()` would produce) to state.  Stored
asynchronous write operations are modelled as values carrying an identity tag
and a result function `File → Except Unit Unit` (`ok` = the promise resolves,
`error` = it rejects/throws).  Handlers that can call out return, next to the
new state, the list of external invocations they performed.
-/

namespace UiImage

/-- The status classification `'neutral' | 'success' | 'error'` (ui-image.tsx line 41). -/
inductive StatusType where
  | neutral
  | success
  | error
deriving DecidableEq, Repr

/-- A browser `File` handle as far as the component observes it: a name and a
byte size (`selectedFile.name`, `selectedFile.size`). -/
structure File where
  name : String
  size : Nat
deriving DecidableEq, Repr

/-- The `ImageMetadata` record (ui-image.tsx lines 3–9).  The `as any` cast on
line 125 lets a spread of a `null` metadata produce an object holding only
`lastUpdated`, so every field other than `lastUpdated` is optional here;
`lastUpdated` is a timestamp (`Date` modelled as a `Nat` tick). -/
structure ImageMetadata where
  format : Option String
  width : Option Nat
  height : Option Nat
  size : Option Nat
  lastUpdated : Nat
deriving DecidableEq, Repr

/-- A caller-supplied write operation `(file: File) => Promise<void>`:
an identity tag (so distinct functions can be told apart) together with the
awaited outcome on each file (`ok` = resolves, `error` = rejects/throws). -/
structure WriteOp where
  id : Nat
  run : File → Except Unit Unit

/-- The options bundle of `setValue` (ui-image.tsx lines 59–63).  The read and
observe slots are present in the signature but never stored (lines 65, 67 are
commented out), so their payloads are opaque. -/
structure SetValueOptions where
  readOperation : Option Unit := none
  writeOperation : Option WriteOp := none
  observeOperation : Option Unit := none

/-- An external call performed by a handler.  The only outward side effect the
component ever produces is invoking the stored write operation with the
selected file (ui-image.tsx line 112). -/
inductive Invocation where
  | writeCall (id : Nat) (file : File)
deriving DecidableEq, Repr

/-- The component's props and internal state (ui-image.tsx lines 20–48),
restricted to the fields the handlers read or write.  `fileInputValue` is the
`value` of the hidden file-picker input, reset by the Cancel button
(line 206). -/
structure ComponentState where
  label : String
  canRead : Bool
  canWrite : Bool
  canObserve : Bool
  isObserving : Bool
  selectedFile : Option File
  currentImageUrl : Option String
  metadata : Option ImageMetadata
  loading : Bool
  statusText : String
  statusType : StatusType
  storedWriteOperation : Option WriteOp
  fileInputValue : String

/-- JavaScript truthiness of the `string | null` field `currentImageUrl`:
`null` and the empty string are falsy, every other string is truthy. -/
def strTruthy : Option String → Bool
  | none => false
  | some s => s ≠ ""

/-- `updateStatus` (ui-image.tsx lines 121–127): overwrite the status pair;
then, when the classification is success, or the current image URL is truthy
and the classification is not error, replace the metadata by a spread of the
old metadata with `lastUpdated` set to the current time (`now`).  A spread of a
`null` metadata contributes no fields, so each optional field is pulled through
`Option.bind`. -/
def updateStatus (s : ComponentState) (msg : String) (ty : StatusType) (now : Nat) :
    ComponentState :=
  let s1 := { s with statusText := msg, statusType := ty }
  if ty = StatusType.success ∨ (strTruthy s.currentImageUrl ∧ ty ≠ StatusType.error) then
    { s1 with
      metadata := some
        { format := s.metadata.bind ImageMetadata.format
          width := s.metadata.bind ImageMetadata.width
          height := s.metadata.bind ImageMetadata.height
          size := s.metadata.bind ImageMetadata.size
          lastUpdated := now } }
  else
    s1

/-- `handleSend` (ui-image.tsx lines 107–119).  Guards on a selected file and a
stored write operation; sets `loading`, posts `"Sending..."`, awaits the write
operation, posts the outcome status, and clears `loading` in the `finally`
block.  `t1` and `t2` are the clock readings of the two `updateStatus` calls.
The second component lists the external invocations performed. -/
def handleSend (s : ComponentState) (t1 t2 : Nat) :
    ComponentState × List Invocation :=
  match s.selectedFile, s.storedWriteOperation with
  | some file, some w =>
    let s1 := { s with loading := true }
    let s2 := updateStatus s1 "Sending..." StatusType.neutral t1
    let s3 :=
      match w.run file with
      | Except.ok _ => updateStatus s2 "Sent successfully" StatusType.success t2
      | Except.error _ => updateStatus s2 "Failed to send" StatusType.error t2
    ({ s3 with loading := false }, [Invocation.writeCall w.id file])
  | _, _ => (s, [])

/-- `setValue` (ui-image.tsx lines 56–70): the value argument is ignored; of the
options bundle only `writeOperation` is retained (the read and observe slots
are commented out), and nothing else happens — auto-load is disabled. -/
def setValue (s : ComponentState) (_value : Option Unit)
    (options : Option SetValueOptions) : ComponentState :=
  match options.bind SetValueOptions.writeOperation with
  | some w => { s with storedWriteOperation := some w }
  | none => s

/-- The Cancel button's click handler (ui-image.tsx line 206):
`this.selectedFile = null; this.fileInput.value = ''`. -/
def handleCancel (s : ComponentState) : ComponentState :=
  { s with selectedFile := none, fileInputValue := "" }

/-- The image element's `onError` handler (ui-image.tsx line 171):
`this.updateStatus("Failed to display image", 'error')`. -/
def onImageError (s : ComponentState) (now : Nat) : ComponentState :=
  updateStatus s "Failed to display image" StatusType.error now

/-- `onImageLoad` (ui-image.tsx lines 129–139): build a fresh, fully populated
metadata record from the rendered element's natural dimensions and clear the
loading flag.  `this.selectedFile?.size || 0` falls back to `0` when no file is
selected (a size of `0` is itself falsy, yielding the same `0`). -/
def onImageLoad (s : ComponentState) (w h now : Nat) : ComponentState :=
  { s with
    metadata := some
      { format := some "IMG"
        width := some w
        height := some h
        size := some (match s.selectedFile with | some f => f.size | none => 0)
        lastUpdated := now }
    loading := false }

/-- `getSubtitle` (ui-image.tsx lines 141–147): collect the labels of the true
capability flags in the fixed order Read-only, Writable, Live, join them with
`" / "`, and fall back to `"Image"` when the join is the empty string
(JavaScript `||` on a falsy string). -/
def getSubtitle (s : ComponentState) : String :=
  let parts : List String :=
    (if s.canRead then ["Read-only"] else []) ++
    (if s.canWrite then ["Writable"] else []) ++
    (if s.canObserve then ["Live"] else [])
  let joined := String.intercalate " / " parts
  if joined = "" then "Image" else joined

/-- `getPlaceholderText` (ui-image.tsx lines 149–153): first matching rule
wins. -/
def getPlaceholderText (s : ComponentState) : String :=
  if s.canRead then "Image Placeholder"
  else if s.canObserve then "Waiting for connection..."
  else "No image available."

/-- The "Last update" line of the render (ui-image.tsx lines 233–238):
`this.metadata?.lastUpdated` is a `Date`, always truthy when present, so the
line shows the formatted time exactly when metadata exists (`some t`), and an
em-dash placeholder otherwise (`none`). -/
def lastUpdatedDisplay (s : ComponentState) : Option Nat :=
  s.metadata.map ImageMetadata.lastUpdated

/-! ## Byte-size formatting (`formatFileSize`, ui-image.tsx lines 99–105) -/

/-- Fuel-bounded floor of the base-1024 logarithm: `logFloor1024 fuel n` counts
how often `n` can be divided by 1024 before dropping below 1024.  With enough
fuel this is the exact `⌊log_1024 n⌋` for `n ≥ 1`. -/
def logFloor1024 : Nat → Nat → Nat
  | 0, _ => 0
  | fuel + 1, n => if 1024 ≤ n then logFloor1024 fuel (n / 1024) + 1 else 0

/-- The unit index `i = Math.floor(Math.log(bytes) / Math.log(1024))`
(ui-image.tsx line 103) as the IEEE-754 double computation actually behaves.
For `1 ≤ bytes ≤ 2^50 − 4` the double quotient floors to the exact
`⌊log_1024 bytes⌋` (checked at every unit boundary `1024^k ± 2`, `k ≤ 4`, and
at the threshold below `2^50`).  For `2^50 − 3 ≤ bytes < 2^50` the quotient of
the two rounded logarithms is exactly `5.0`, one more than the exact floor
(verified numerically: the first byte count whose quotient reaches `5.0` is
`2^50 − 3`).  Beyond `2^50` this model returns the exact floor; no theorem
below evaluates it there, as the double computation again overshoots just
under each higher power of 1024. -/
def unitIndex (bytes : Nat) : Nat :=
  if 2 ^ 50 - 3 ≤ bytes ∧ bytes < 2 ^ 50 then 5
  else logFloor1024 bytes bytes

/-- The integer number of hundredths produced by
`(bytes / Math.pow(1024, i)).toFixed(2)` (ui-image.tsx line 104), i.e.
`100 · bytes / 1024^i` rounded to the nearest integer, ties upward.  This is
exact for `bytes < 2^53`: `bytes` and `bytes / 2^(10·i)` are then exact
doubles, and `toFixed` rounds the exact value, picking the larger candidate on
a tie. -/
def roundHundredths (bytes i : Nat) : Nat :=
  (200 * bytes + 1024 ^ i) / (2 * 1024 ^ i)

/-- Decimal rendering of a number of hundredths the way
`parseFloat(x.toFixed(2))` followed by string conversion shows it: at most two
decimal places, trailing zeros (and a bare trailing point) dropped. -/
def renderHundredths (c : Nat) : String :=
  let whole := c / 100
  let frac := c % 100
  if frac = 0 then toString whole
  else if frac % 10 = 0 then toString whole ++ "." ++ toString (frac / 10)
  else if frac < 10 then toString whole ++ ".0" ++ toString frac
  else toString whole ++ "." ++ toString frac

/-- The unit lookup `sizes[i]` over `['B','KB','MB','GB','TB']`
(ui-image.tsx line 102); an out-of-range index yields JavaScript `undefined`,
which string concatenation renders as `"undefined"`. -/
def unitName (i : Nat) : String :=
  List.getD ["B", "KB", "MB", "GB", "TB"] i "undefined"

/-- `formatFileSize` (ui-image.tsx lines 99–105). -/
def formatFileSize (bytes : Nat) : String :=
  if bytes = 0 then "0 B"
  else renderHundredths (roundHundredths bytes (unitIndex bytes)) ++ " " ++
    unitName (unitIndex bytes)

/-- The subtitle as §4.7 of the specification words it: the `" / "`-separated
join, in the fixed order Read-only, Writable, Live, of the labels whose flag
is true, with `"Image"` when no flag is true. -/
def subtitleSpec (r w o : Bool) : String :=
  let labels : List String :=
    (if r then ["Read-only"] else []) ++
    (if w then ["Writable"] else []) ++
    (if o then ["Live"] else [])
  if labels = [] then "Image" else String.intercalate " / " labels

/-- The placeholder text as §4.7 of the specification words it: first matching
rule wins, and the write flag plays no role (it is not an argument). -/
def placeholderSpec (r o : Bool) : String :=
  if r then "Image Placeholder"
  else if o then "Waiting for connection..."
  else "No image available."

/-! ## Concrete fixtures used by the witnesses -/

/-- A concrete selected file. -/
def sampleFile : File := { name := "photo.png", size := 1500 }

/-- A write operation whose promise always resolves. -/
def okOp : WriteOp := { id := 1, run := fun _ => Except.ok () }

/-- A write operation whose promise always rejects. -/
def failOp : WriteOp := { id := 2, run := fun _ => Except.error () }

/-- The component's state right after construction with `canWrite` enabled:
the `@State`/`@Prop` initializers of ui-image.tsx lines 20–48. -/
def baseState : ComponentState :=
  { label := "CameraSnapshot"
    canRead := false
    canWrite := true
    canObserve := false
    isObserving := false
    selectedFile := none
    currentImageUrl := none
    metadata := none
    loading := false
    statusText := "No data received yet"
    statusType := StatusType.neutral
    storedWriteOperation := none
    fileInputValue := "" }

/-- `baseState` after the user picked `sampleFile` (no write operation yet). -/
def selectedOnlyState : ComponentState :=
  { baseState with selectedFile := some sampleFile }

/-- A state ready to send: `sampleFile` selected and `okOp` stored. -/
def sendReadyState : ComponentState :=
  { baseState with selectedFile := some sampleFile, storedWriteOperation := some okOp }

/-- An options bundle supplying `failOp` as the write operation. -/
def failOpts : SetValueOptions := { writeOperation := some failOp }

/-- An options bundle supplying `okOp` as the write operation. -/
def okOpts : SetValueOptions := { writeOperation := some okOp }

/-- `selectedOnlyState` after configuring the write operation twice:
first `failOp`, then `okOp`. -/
def doubleSetState : ComponentState :=
  setValue (setValue selectedOnlyState none (some failOpts)) none (some okOpts)

/-- `baseState` once a data URL has been decoded and is being displayed. -/
def displayingState : ComponentState :=
  { baseState with currentImageUrl := some "data:image/png;base64,AAAA" }

/-! ## Helper lemmas -/

/-- `updateStatus` always overwrites the status text with its message. -/
theorem updateStatus_statusText (s : ComponentState) (msg : String) (ty : StatusType)
    (now : Nat) : (updateStatus s msg ty now).statusText = msg := by
  simp only [updateStatus]
  split <;> rfl

/-- `updateStatus` always overwrites the status classification. -/
theorem updateStatus_statusType (s : ComponentState) (msg : String) (ty : StatusType)
    (now : Nat) : (updateStatus s msg ty now).statusType = ty := by
  simp only [updateStatus]
  split <;> rfl

/-- `updateStatus` never touches the loading flag. -/
theorem updateStatus_loading (s : ComponentState) (msg : String) (ty : StatusType)
    (now : Nat) : (updateStatus s msg ty now).loading = s.loading := by
  simp only [updateStatus]
  split <;> rfl

/-- `updateStatus` touches neither the selected file, nor the image URL, nor
the stored write operation, nor the file-picker value. -/
theorem updateStatus_frame (s : ComponentState) (msg : String) (ty : StatusType)
    (now : Nat) :
    (updateStatus s msg ty now).selectedFile = s.selectedFile ∧
    (updateStatus s msg ty now).currentImageUrl = s.currentImageUrl ∧
    (updateStatus s msg ty now).storedWriteOperation = s.storedWriteOperation ∧
    (updateStatus s msg ty now).fileInputValue = s.fileInputValue := by
  simp only [updateStatus]
  split <;> exact ⟨rfl, rfl, rfl, rfl⟩

/-- When called with the success classification, `updateStatus` always
replaces the metadata by the spread of the old metadata with a fresh
timestamp. -/
theorem updateStatus_success_metadata (s : ComponentState) (msg : String) (now : Nat) :
    (updateStatus s msg StatusType.success now).metadata =
      some { format := s.metadata.bind ImageMetadata.format
             width := s.metadata.bind ImageMetadata.width
             height := s.metadata.bind ImageMetadata.height
             size := s.metadata.bind ImageMetadata.size
             lastUpdated := now } := by
  simp [updateStatus]

/-- Characterization of the fuel-bounded base-1024 logarithm: with enough fuel
it returns the exponent of the largest power of 1024 not exceeding `n`. -/
theorem logFloor1024_bounds :
    ∀ fuel n : Nat, 1 ≤ n → n < 1024 ^ fuel →
      1024 ^ logFloor1024 fuel n ≤ n ∧ n < 1024 ^ (logFloor1024 fuel n + 1) := by
  intro fuel
  induction fuel with
  | zero =>
    intro n h1 h2
    simp only [pow_zero] at h2
    omega
  | succ fuel ih =>
    intro n h1 h2
    by_cases hge : 1024 ≤ n
    · have hdiv1 : 1 ≤ n / 1024 := (Nat.one_le_div_iff (by norm_num)).mpr hge
      have hdiv2 : n / 1024 < 1024 ^ fuel := by
        rw [Nat.div_lt_iff_lt_mul (by norm_num : 0 < 1024)]
        calc n < 1024 ^ (fuel + 1) := h2
          _ = 1024 ^ fuel * 1024 := by rw [pow_succ]
      obtain ⟨hlo, hhi⟩ := ih (n / 1024) hdiv1 hdiv2
      simp only [logFloor1024, if_pos hge]
      constructor
      · calc 1024 ^ (logFloor1024 fuel (n / 1024) + 1)
            = 1024 ^ logFloor1024 fuel (n / 1024) * 1024 := by rw [pow_succ]
          _ ≤ n / 1024 * 1024 := Nat.mul_le_mul_right _ hlo
          _ ≤ n := Nat.div_mul_le_self n 1024
      · have hmod : n % 1024 < 1024 := Nat.mod_lt _ (by norm_num)
        have hdm : 1024 * (n / 1024) + n % 1024 = n := Nat.div_add_mod n 1024
        have hstep : n < (n / 1024 + 1) * 1024 := by omega
        calc n < (n / 1024 + 1) * 1024 := hstep
          _ ≤ 1024 ^ (logFloor1024 fuel (n / 1024) + 1) * 1024 :=
            Nat.mul_le_mul_right _ hhi
          _ = 1024 ^ (logFloor1024 fuel (n / 1024) + 1 + 1) := (pow_succ _ _).symm
    · simp only [logFloor1024, if_neg hge]
      constructor
      · simpa using h1
      · simpa using Nat.lt_of_not_le hge

/-- On the verified range the unit index brackets `bytes` between consecutive
powers of 1024, i.e. it is the exact `⌊log_1024 bytes⌋`. -/
theorem unitIndex_bounds (B : Nat) (h1 : 1 ≤ B) (h2 : B ≤ 2 ^ 50 - 4) :
    1024 ^ unitIndex B ≤ B ∧ B < 1024 ^ (unitIndex B + 1) := by
  have hcond : ¬(2 ^ 50 - 3 ≤ B ∧ B < 2 ^ 50) := by omega
  rw [unitIndex, if_neg hcond]
  exact logFloor1024_bounds B B h1 (Nat.lt_pow_self (by norm_num) B)

/-- On the verified range the unit index stays inside the five-element unit
list. -/
theorem unitIndex_lt_five (B : Nat) (h1 : 1 ≤ B) (h2 : B ≤ 2 ^ 50 - 4) :
    unitIndex B < 5 := by
  obtain ⟨hlo, _⟩ := unitIndex_bounds B h1 h2
  by_contra hge
  push_neg at hge
  have hpow : (1024 : Nat) ^ 5 ≤ 1024 ^ unitIndex B :=
    Nat.pow_le_pow_right (by norm_num) hge
  have : (1024 : Nat) ^ 5 = 2 ^ 50 := by norm_num
  omega

/-- An in-range index reads the unit list itself, never `undefined`. -/
theorem unitName_mem (i : Nat) (h : i < 5) :
    unitName i ∈ (["B", "KB", "MB", "GB", "TB"] : List String) := by
  interval_cases i <;> simp [unitName]

/-! ## Claim theorems -/

/-- C1 (amended): `formatFileSize 0 = "0 B"`, and for every byte count
`1 ≤ B ≤ 2^50 − 4` the result is the two-decimal rendering of
`B / 1024^i` (nearest hundredth, ties upward, trailing zeros dropped) followed
by the unit of index `i` drawn from `{B, KB, MB, GB, TB}`, where `i` is the
exact `⌊log_1024 B⌋` (witnessed by `1024^i ≤ B < 1024^(i+1)`).  The original
claim ranged over all `B ≥ 1`; it fails from `B = 2^50 − 3` upward, where the
floating-point `Math.log(B)/Math.log(1024)` reaches `5.0` and the code indexes
past the end of its unit array. -/
theorem formatFileSize_correct :
    formatFileSize 0 = "0 B" ∧
    ∀ B : Nat, 1 ≤ B → B ≤ 2 ^ 50 - 4 →
      ∃ i : Nat, i < 5 ∧
        1024 ^ i ≤ B ∧ B < 1024 ^ (i + 1) ∧
        2 * 1024 ^ i * roundHundredths B i ≤ 200 * B + 1024 ^ i ∧
        200 * B + 1024 ^ i < 2 * 1024 ^ i * (roundHundredths B i + 1) ∧
        unitName i ∈ (["B", "KB", "MB", "GB", "TB"] : List String) ∧
        formatFileSize B =
          renderHundredths (roundHundredths B i) ++ " " ++ unitName i := by
  refine ⟨rfl, ?_⟩
  intro B h1 h2
  obtain ⟨hlo, hhi⟩ := unitIndex_bounds B h1 h2
  have h5 := unitIndex_lt_five B h1 h2
  refine ⟨unitIndex B, h5, hlo, hhi, ?_, ?_, unitName_mem _ h5, ?_⟩
  · have h := Nat.div_mul_le_self (200 * B + 1024 ^ unitIndex B) (2 * 1024 ^ unitIndex B)
    calc 2 * 1024 ^ unitIndex B * roundHundredths B (unitIndex B)
        = roundHundredths B (unitIndex B) * (2 * 1024 ^ unitIndex B) := by ring
      _ ≤ 200 * B + 1024 ^ unitIndex B := h
  · have hd : 0 < 2 * 1024 ^ unitIndex B := by positivity
    have hmod : (200 * B + 1024 ^ unitIndex B) % (2 * 1024 ^ unitIndex B)
        < 2 * 1024 ^ unitIndex B := Nat.mod_lt _ hd
    have hdm := Nat.div_add_mod (200 * B + 1024 ^ unitIndex B) (2 * 1024 ^ unitIndex B)
    calc 200 * B + 1024 ^ unitIndex B
        = 2 * 1024 ^ unitIndex B * roundHundredths B (unitIndex B) +
            (200 * B + 1024 ^ unitIndex B) % (2 * 1024 ^ unitIndex B) := hdm.symm
      _ < 2 * 1024 ^ unitIndex B * roundHundredths B (unitIndex B) +
            2 * 1024 ^ unitIndex B := Nat.add_lt_add_left hmod _
      _ = 2 * 1024 ^ unitIndex B * (roundHundredths B (unitIndex B) + 1) := by ring
  · have hne : B ≠ 0 := by omega
    simp only [formatFileSize, if_neg hne]

/-- C1 counterexample: at `B = 2^50 − 1` (a terabyte-range size) the exact
`⌊log_1024 B⌋` is `4`, so the claim prescribes the unit `TB` and the numeric
part `1024` — the string `"1024 TB"` — but the code computes `"1 undefined"`:
the floating-point logarithm quotient rounds to `5.0` and `sizes[5]` is
JavaScript `undefined`. -/
theorem formatFileSize_counterexample :
    1024 ^ 4 ≤ 2 ^ 50 - 1 ∧ 2 ^ 50 - 1 < 1024 ^ (4 + 1) ∧
    renderHundredths (roundHundredths (2 ^ 50 - 1) 4) ++ " " ++ unitName 4 = "1024 TB" ∧
    formatFileSize (2 ^ 50 - 1) = "1 undefined" ∧
    formatFileSize (2 ^ 50 - 1) ≠
      renderHundredths (roundHundredths (2 ^ 50 - 1) 4) ++ " " ++ unitName 4 := by
  refine ⟨by norm_num, by norm_num, by decide, by decide, by decide⟩

/-- C1 witness: the amended theorem applied at `B = 1500`, which lands in the
kilobyte bucket and renders as `"1.46 KB"`. -/
theorem formatFileSize_correct_witness :
    1 ≤ 1500 ∧ 1500 ≤ 2 ^ 50 - 4 ∧
    (∃ i : Nat, i < 5 ∧
      1024 ^ i ≤ 1500 ∧ 1500 < 1024 ^ (i + 1) ∧
      2 * 1024 ^ i * roundHundredths 1500 i ≤ 200 * 1500 + 1024 ^ i ∧
      200 * 1500 + 1024 ^ i < 2 * 1024 ^ i * (roundHundredths 1500 i + 1) ∧
      unitName i ∈ (["B", "KB", "MB", "GB", "TB"] : List String) ∧
      formatFileSize 1500 =
        renderHundredths (roundHundredths 1500 i) ++ " " ++ unitName i) ∧
    formatFileSize 1500 = "1.46 KB" :=
  ⟨by norm_num, by norm_num,
    formatFileSize_correct.2 1500 (by norm_num) (by norm_num), by decide⟩


/-- C2: with a file selected and a write operation stored, `handleSend` first
sets the loading flag and posts the neutral `"Sending..."` status (the
intermediate state it builds has `loading = true` and that status pair), then
invokes the stored write operation with the selected file (the invocation
trace records exactly that call); if the operation resolves the final status
is the success `"Sent successfully"`, if it rejects the final status is the
error `"Failed to send"`, and in either outcome the final loading flag is
`false`. -/
theorem handleSend_outcomes (s : ComponentState) (f : File) (w : WriteOp) (t1 t2 : Nat)
    (hf : s.selectedFile = some f) (hw : s.storedWriteOperation = some w) :
    (handleSend s t1 t2).2 = [Invocation.writeCall w.id f] ∧
    (updateStatus { s with loading := true } "Sending..." StatusType.neutral t1).loading
      = true ∧
    (updateStatus { s with loading := true } "Sending..." StatusType.neutral t1).statusText
      = "Sending..." ∧
    (updateStatus { s with loading := true } "Sending..." StatusType.neutral t1).statusType
      = StatusType.neutral ∧
    (∀ u : Unit, w.run f = Except.ok u →
      (handleSend s t1 t2).1.statusText = "Sent successfully" ∧
      (handleSend s t1 t2).1.statusType = StatusType.success) ∧
    (∀ e : Unit, w.run f = Except.error e →
      (handleSend s t1 t2).1.statusText = "Failed to send" ∧
      (handleSend s t1 t2).1.statusType = StatusType.error) ∧
    (handleSend s t1 t2).1.loading = false := by
  refine ⟨?_, updateStatus_loading _ _ _ _, updateStatus_statusText _ _ _ _,
    updateStatus_statusType _ _ _ _, ?_, ?_, ?_⟩
  · simp only [handleSend, hf, hw]
  · intro u hu
    simp only [handleSend, hf, hw, hu]
    exact ⟨updateStatus_statusText _ _ _ _, updateStatus_statusType _ _ _ _⟩
  · intro e he
    simp only [handleSend, hf, hw, he]
    exact ⟨updateStatus_statusText _ _ _ _, updateStatus_statusType _ _ _ _⟩
  · simp only [handleSend, hf, hw]

/-- C2 witness: `handleSend_outcomes` applied to `sendReadyState`, whose
stored operation `okOp` always resolves. -/
theorem handleSend_outcomes_witness :
    sendReadyState.selectedFile = some sampleFile ∧
    sendReadyState.storedWriteOperation = some okOp ∧
    ((handleSend sendReadyState 10 20).2 = [Invocation.writeCall okOp.id sampleFile] ∧
    (updateStatus { sendReadyState with loading := true }
        "Sending..." StatusType.neutral 10).loading = true ∧
    (updateStatus { sendReadyState with loading := true }
        "Sending..." StatusType.neutral 10).statusText = "Sending..." ∧
    (updateStatus { sendReadyState with loading := true }
        "Sending..." StatusType.neutral 10).statusType = StatusType.neutral ∧
    (∀ u : Unit, okOp.run sampleFile = Except.ok u →
      (handleSend sendReadyState 10 20).1.statusText = "Sent successfully" ∧
      (handleSend sendReadyState 10 20).1.statusType = StatusType.success) ∧
    (∀ e : Unit, okOp.run sampleFile = Except.error e →
      (handleSend sendReadyState 10 20).1.statusText = "Failed to send" ∧
      (handleSend sendReadyState 10 20).1.statusType = StatusType.error) ∧
    (handleSend sendReadyState 10 20).1.loading = false) :=
  ⟨rfl, rfl, handleSend_outcomes sendReadyState sampleFile okOp 10 20 rfl rfl⟩

/-- C4: when no file is selected or no write operation has been stored,
`handleSend` returns the state unchanged and performs no invocation — in
particular status text, status classification, metadata, selected file, image
URL and the loading flag all keep their values, and the loading flag is never
set. -/
theorem handleSend_noop (s : ComponentState) (t1 t2 : Nat)
    (h : s.selectedFile = none ∨ s.storedWriteOperation = none) :
    handleSend s t1 t2 = (s, []) := by
  rcases h with h | h
  · simp [handleSend, h]
  · rw [handleSend, h]
    cases s.selectedFile <;> rfl

/-- C4 witness: `handleSend_noop` on `selectedOnlyState`, which has a selected
file but no stored write operation. -/
theorem handleSend_noop_witness :
    (selectedOnlyState.selectedFile = none ∨
      selectedOnlyState.storedWriteOperation = none) ∧
    handleSend selectedOnlyState 3 4 = (selectedOnlyState, []) :=
  ⟨Or.inr rfl, handleSend_noop selectedOnlyState 3 4 (Or.inr rfl)⟩

/-- C5: `setValue` retains only the `writeOperation` slot of its options
bundle and changes nothing else; supplying write operations twice keeps only
the second, and a subsequent send with a selected file invokes exactly the
second-supplied operation — the first is never invoked when the two are
distinct. -/
theorem setValue_lastWriteWins (s : ComponentState) (v1 v2 : Option Unit)
    (o1 o2 : SetValueOptions) (w1 w2 : WriteOp)
    (h1 : o1.writeOperation = some w1) (h2 : o2.writeOperation = some w2) :
    (setValue (setValue s v1 (some o1)) v2 (some o2)).storedWriteOperation = some w2 ∧
    (setValue (setValue s v1 (some o1)) v2 (some o2)).label = s.label ∧
    (setValue (setValue s v1 (some o1)) v2 (some o2)).canRead = s.canRead ∧
    (setValue (setValue s v1 (some o1)) v2 (some o2)).canWrite = s.canWrite ∧
    (setValue (setValue s v1 (some o1)) v2 (some o2)).canObserve = s.canObserve ∧
    (setValue (setValue s v1 (some o1)) v2 (some o2)).isObserving = s.isObserving ∧
    (setValue (setValue s v1 (some o1)) v2 (some o2)).selectedFile = s.selectedFile ∧
    (setValue (setValue s v1 (some o1)) v2 (some o2)).currentImageUrl = s.currentImageUrl ∧
    (setValue (setValue s v1 (some o1)) v2 (some o2)).metadata = s.metadata ∧
    (setValue (setValue s v1 (some o1)) v2 (some o2)).loading = s.loading ∧
    (setValue (setValue s v1 (some o1)) v2 (some o2)).statusText = s.statusText ∧
    (setValue (setValue s v1 (some o1)) v2 (some o2)).statusType = s.statusType ∧
    (setValue (setValue s v1 (some o1)) v2 (some o2)).fileInputValue = s.fileInputValue ∧
    ∀ f : File, ∀ t1 t2 : Nat,
      s.selectedFile = some f →
      (handleSend (setValue (setValue s v1 (some o1)) v2 (some o2)) t1 t2).2 =
        [Invocation.writeCall w2.id f] ∧
      (w1.id ≠ w2.id →
        Invocation.writeCall w1.id f ∉
          (handleSend (setValue (setValue s v1 (some o1)) v2 (some o2)) t1 t2).2) := by
  have hs2 : setValue (setValue s v1 (some o1)) v2 (some o2)
      = { s with storedWriteOperation := some w2 } := by
    simp [setValue, h1, h2]
  rw [hs2]
  refine ⟨rfl, rfl, rfl, rfl, rfl, rfl, rfl, rfl, rfl, rfl, rfl, rfl, rfl, ?_⟩
  intro f t1 t2 hf
  constructor
  · simp only [handleSend, hf]
  · intro hne
    simp only [handleSend, hf]
    simp [hne]

/-- C5 witness: `setValue_lastWriteWins` with the distinct operations `failOp`
then `okOp` on `selectedOnlyState`; the later send invokes `okOp` only. -/
theorem setValue_lastWriteWins_witness :
    failOpts.writeOperation = some failOp ∧
    okOpts.writeOperation = some okOp ∧
    (doubleSetState.storedWriteOperation = some okOp ∧
    doubleSetState.label = selectedOnlyState.label ∧
    doubleSetState.canRead = selectedOnlyState.canRead ∧
    doubleSetState.canWrite = selectedOnlyState.canWrite ∧
    doubleSetState.canObserve = selectedOnlyState.canObserve ∧
    doubleSetState.isObserving = selectedOnlyState.isObserving ∧
    doubleSetState.selectedFile = selectedOnlyState.selectedFile ∧
    doubleSetState.currentImageUrl = selectedOnlyState.currentImageUrl ∧
    doubleSetState.metadata = selectedOnlyState.metadata ∧
    doubleSetState.loading = selectedOnlyState.loading ∧
    doubleSetState.statusText = selectedOnlyState.statusText ∧
    doubleSetState.statusType = selectedOnlyState.statusType ∧
    doubleSetState.fileInputValue = selectedOnlyState.fileInputValue ∧
    ∀ f : File, ∀ t1 t2 : Nat,
      selectedOnlyState.selectedFile = some f →
      (handleSend doubleSetState t1 t2).2 = [Invocation.writeCall okOp.id f] ∧
      (failOp.id ≠ okOp.id →
        Invocation.writeCall failOp.id f ∉ (handleSend doubleSetState t1 t2).2)) :=
  ⟨rfl, rfl,
    setValue_lastWriteWins selectedOnlyState none none failOpts okOpts failOp okOp rfl rfl⟩

/-- C3: for every message and classification, `updateStatus` overwrites the
status pair, refreshes the metadata timestamp to the current time exactly when
the classification is success or (the classification is not error and a
displayable image URL currently exists), shallow-preserving every other
metadata field, and touches no other component state.  The hypothesis rules
out an empty-string URL, which JavaScript would treat as absent; the component
only ever stores non-empty data URLs. -/
theorem updateStatus_correct (s : ComponentState) (msg : String) (ty : StatusType)
    (now : Nat) (hne : ∀ u : String, s.currentImageUrl = some u → u ≠ "") :
    (updateStatus s msg ty now).statusText = msg ∧
    (updateStatus s msg ty now).statusType = ty ∧
    (updateStatus s msg ty now).metadata =
      (if ty = StatusType.success ∨ (ty ≠ StatusType.error ∧ s.currentImageUrl.isSome = true)
       then some { format := s.metadata.bind ImageMetadata.format
                   width := s.metadata.bind ImageMetadata.width
                   height := s.metadata.bind ImageMetadata.height
                   size := s.metadata.bind ImageMetadata.size
                   lastUpdated := now }
       else s.metadata) ∧
    (updateStatus s msg ty now).loading = s.loading ∧
    (updateStatus s msg ty now).selectedFile = s.selectedFile ∧
    (updateStatus s msg ty now).currentImageUrl = s.currentImageUrl ∧
    (updateStatus s msg ty now).storedWriteOperation = s.storedWriteOperation := by
  have htr : strTruthy s.currentImageUrl = s.currentImageUrl.isSome := by
    cases hc : s.currentImageUrl with
    | none => rfl
    | some u => simp [strTruthy, hne u hc]
  refine ⟨updateStatus_statusText _ _ _ _, updateStatus_statusType _ _ _ _, ?_,
    updateStatus_loading _ _ _ _, (updateStatus_frame _ _ _ _).1,
    (updateStatus_frame _ _ _ _).2.1, (updateStatus_frame _ _ _ _).2.2.1⟩
  by_cases hD : ty = StatusType.success ∨
      (ty ≠ StatusType.error ∧ s.currentImageUrl.isSome = true)
  · have hC : ty = StatusType.success ∨
        (strTruthy s.currentImageUrl = true ∧ ty ≠ StatusType.error) := by
      rw [htr]; tauto
    simp only [updateStatus]
    rw [if_pos hC, if_pos hD]
  · have hC : ¬(ty = StatusType.success ∨
        (strTruthy s.currentImageUrl = true ∧ ty ≠ StatusType.error)) := by
      rw [htr]; tauto
    simp only [updateStatus]
    rw [if_neg hC, if_neg hD]

/-- C3 witness: `updateStatus_correct` on `displayingState` (non-empty image
URL, no metadata) with a neutral message; the timestamp rule fires through the
image-URL disjunct. -/
theorem updateStatus_correct_witness :
    (∀ u : String, displayingState.currentImageUrl = some u → u ≠ "") ∧
    ((updateStatus displayingState "Displaying" StatusType.neutral 7).statusText
        = "Displaying" ∧
    (updateStatus displayingState "Displaying" StatusType.neutral 7).statusType
        = StatusType.neutral ∧
    (updateStatus displayingState "Displaying" StatusType.neutral 7).metadata =
      (if StatusType.neutral = StatusType.success ∨
          (StatusType.neutral ≠ StatusType.error ∧
            displayingState.currentImageUrl.isSome = true)
       then some { format := displayingState.metadata.bind ImageMetadata.format
                   width := displayingState.metadata.bind ImageMetadata.width
                   height := displayingState.metadata.bind ImageMetadata.height
                   size := displayingState.metadata.bind ImageMetadata.size
                   lastUpdated := 7 }
       else displayingState.metadata) ∧
    (updateStatus displayingState "Displaying" StatusType.neutral 7).loading
        = displayingState.loading ∧
    (updateStatus displayingState "Displaying" StatusType.neutral 7).selectedFile
        = displayingState.selectedFile ∧
    (updateStatus displayingState "Displaying" StatusType.neutral 7).currentImageUrl
        = displayingState.currentImageUrl ∧
    (updateStatus displayingState "Displaying" StatusType.neutral 7).storedWriteOperation
        = displayingState.storedWriteOperation) :=
  ⟨fun u h => by simp [displayingState, baseState] at h; subst h; decide,
    updateStatus_correct displayingState "Displaying" StatusType.neutral 7
      (fun u h => by simp [displayingState, baseState] at h; subst h; decide)⟩

/-- C6: for every state with a selected file, the Cancel action clears the
selected file and resets the file-picker value, and leaves the displayable
image URL, the metadata record, the status pair and the loading flag
unchanged. -/
theorem handleCancel_correct (s : ComponentState) (f : File)
    (_hf : s.selectedFile = some f) :
    (handleCancel s).selectedFile = none ∧
    (handleCancel s).fileInputValue = "" ∧
    (handleCancel s).currentImageUrl = s.currentImageUrl ∧
    (handleCancel s).metadata = s.metadata ∧
    (handleCancel s).statusText = s.statusText ∧
    (handleCancel s).statusType = s.statusType ∧
    (handleCancel s).loading = s.loading :=
  ⟨rfl, rfl, rfl, rfl, rfl, rfl, rfl⟩

/-- C6 witness: `handleCancel_correct` on `selectedOnlyState`. -/
theorem handleCancel_correct_witness :
    selectedOnlyState.selectedFile = some sampleFile ∧
    ((handleCancel selectedOnlyState).selectedFile = none ∧
    (handleCancel selectedOnlyState).fileInputValue = "" ∧
    (handleCancel selectedOnlyState).currentImageUrl = selectedOnlyState.currentImageUrl ∧
    (handleCancel selectedOnlyState).metadata = selectedOnlyState.metadata ∧
    (handleCancel selectedOnlyState).statusText = selectedOnlyState.statusText ∧
    (handleCancel selectedOnlyState).statusType = selectedOnlyState.statusType ∧
    (handleCancel selectedOnlyState).loading = selectedOnlyState.loading) :=
  ⟨rfl, handleCancel_correct selectedOnlyState sampleFile rfl⟩

/-- C7: for every state, an image render-failure signal sets the status to the
error `"Failed to display image"` and leaves the loading flag unchanged — in
particular a loading flag that was true stays true. -/
theorem onImageError_correct (s : ComponentState) (now : Nat) :
    (onImageError s now).statusText = "Failed to display image" ∧
    (onImageError s now).statusType = StatusType.error ∧
    (onImageError s now).loading = s.loading :=
  ⟨updateStatus_statusText _ _ _ _, updateStatus_statusType _ _ _ _,
    updateStatus_loading _ _ _ _⟩

/-- C8: for every combination of the three capability flags, the subtitle is
the `" / "`-separated join, in the fixed order Read-only, Writable, Live, of
the labels whose flag is true, and is `"Image"` when all three are false
(`subtitleSpec` is the claim's wording of that rule). -/
theorem getSubtitle_correct (s : ComponentState) :
    getSubtitle s = subtitleSpec s.canRead s.canWrite s.canObserve := by
  cases hr : s.canRead <;> cases hw : s.canWrite <;> cases ho : s.canObserve <;>
    simp [getSubtitle, subtitleSpec, hr, hw, ho] <;> decide

/-- C9: for every combination of the three capability flags, the placeholder
text is `"Image Placeholder"` when the read flag is true, else
`"Waiting for connection..."` when the observe flag is true, else
`"No image available."` (`placeholderSpec`, which ignores the write flag);
in particular the write flag alone yields `"No image available."`. -/
theorem getPlaceholderText_correct (s : ComponentState) :
    getPlaceholderText s = placeholderSpec s.canRead s.canObserve ∧
    getPlaceholderText { s with canRead := false, canWrite := true, canObserve := false }
      = "No image available." := by
  constructor
  · cases hr : s.canRead <;> simp [getPlaceholderText, placeholderSpec, hr]
  · rfl

/-- C10: if a send succeeds while the metadata is still `null` (no image has
finished decoding: the URL is also still `null`, so the `"Sending..."` update
does not fire the timestamp rule), the resulting metadata record holds only
the fresh timestamp — format, width, height and size are all absent rather
than defaulted — and the "Last update" line nonetheless displays a time
instead of the dash, so a fully populated metadata record is not an invariant
of the component. -/
theorem partialMetadata_not_invariant (s : ComponentState) (f : File) (w : WriteOp)
    (t1 t2 : Nat) (hmeta : s.metadata = none) (hurl : s.currentImageUrl = none)
    (hf : s.selectedFile = some f) (hw : s.storedWriteOperation = some w)
    (hok : w.run f = Except.ok ()) :
    (handleSend s t1 t2).1.metadata =
      some { format := none, width := none, height := none, size := none,
             lastUpdated := t2 } ∧
    lastUpdatedDisplay (handleSend s t1 t2).1 = some t2 := by
  have hmid : (updateStatus
      { s with selectedFile := some f, storedWriteOperation := some w, loading := true }
      "Sending..." StatusType.neutral t1).metadata = none := by
    simp [updateStatus, strTruthy, hurl, hmeta]
  constructor
  · simp only [handleSend, hf, hw, hok, updateStatus_success_metadata, hmid,
      Option.none_bind]
  · simp only [lastUpdatedDisplay, handleSend, hf, hw, hok,
      updateStatus_success_metadata, hmid, Option.none_bind]
    rfl

/-- C10 witness: `partialMetadata_not_invariant` on `sendReadyState`, whose
metadata and image URL are still `null` when the send succeeds. -/
theorem partialMetadata_not_invariant_witness :
    sendReadyState.metadata = none ∧
    sendReadyState.currentImageUrl = none ∧
    sendReadyState.selectedFile = some sampleFile ∧
    sendReadyState.storedWriteOperation = some okOp ∧
    okOp.run sampleFile = Except.ok () ∧
    ((handleSend sendReadyState 11 22).1.metadata =
      some { format := none, width := none, height := none, size := none,
             lastUpdated := 22 } ∧
    lastUpdatedDisplay (handleSend sendReadyState 11 22).1 = some 22) :=
  ⟨rfl, rfl, rfl, rfl, rfl,
    partialMetadata_not_invariant sendReadyState sampleFile okOp 11 22 rfl rfl rfl rfl rfl⟩

end UiImage
